import Mathlib

/-!
Shallow embedding of `src/app.py` (a Streamlit BI assistant for the ALMG
database) and proofs about the claims of its specification.

The embedding follows the source, function by function:
  * `download_file`           — asset provisioning (existence check, streamed
                                 write, error handling);
  * `load_relationships_from_file` — relationship-file loading (with Python
                                 dict/KeyError semantics made explicit);
  * `get_database_engine`     — schema text generation over table metadata;
  * `executar_plano_de_analise` — the SQL cleanup pipeline (regex fence
                                 stripping, SELECT search), the counter
                                 sentence, the Link column and the column
                                 reordering.

Python strings are `String`/`List Char`; machine-level details (HTTP, pandas,
SQLite) are modelled as explicit parameters describing the data the external
collaborator hands back to the code under verification.
-/

namespace BIApp

/-! ### Character helpers (ASCII case folding, regex `\s`) -/

/-- ASCII lower-casing of a character, as Python lower-cases the ASCII
letters appearing in the source's keywords and regexes. -/
def charLower (c : Char) : Char :=
  if 'A' ≤ c ∧ c ≤ 'Z' then Char.ofNat (c.toNat + 32) else c

/-- Case-insensitive character comparison (ASCII), matching `re.IGNORECASE`
on the ASCII pattern letters used in the source. -/
def charEqCI (a b : Char) : Bool :=
  charLower a = charLower b

/-- The character class `\s` of Python's `re` module, for the ASCII range:
space, tab, newline, carriage return, vertical tab, form feed. -/
def pyIsSpace (c : Char) : Bool :=
  c = ' ' ∨ c = '\t' ∨ c = '\n' ∨ c = '\r' ∨ c = '\x0b' ∨ c = '\x0c'

/-- Left half of Python's `str.strip()`: drop leading whitespace. -/
def pyStripLeft (s : List Char) : List Char := s.dropWhile pyIsSpace

/-- Python's `str.strip()`: drop whitespace from both ends. -/
def pyStrip (s : List Char) : List Char :=
  (pyStripLeft ((pyStripLeft s.reverse)).reverse)

/-- Case-insensitive `startsWith` on character lists. -/
def startsWithCI : List Char → List Char → Bool
  | [], _ => true
  | _ :: _, [] => false
  | p :: ps, c :: cs => charEqCI p c && startsWithCI ps cs

/-- Case-insensitive substring test, the semantics of
`re.search(pattern, s, flags=re.IGNORECASE)` succeeding for a literal
pattern. -/
def containsCI (pat : List Char) : List Char → Bool
  | [] => startsWithCI pat []
  | c :: cs => startsWithCI pat (c :: cs) || containsCI pat cs

/-- Case-sensitive `startsWith` on character lists. -/
def startsWithLit : List Char → List Char → Bool
  | [], _ => true
  | _ :: _, [] => false
  | p :: ps, c :: cs => (p == c) && startsWithLit ps cs

/-! ### The SQL cleanup pipeline of `executar_plano_de_analise`

```python
query_sql = response.text.strip()
query_sql = re.sub(r'^[^`]*```sql\s*', '', query_sql, flags=re.DOTALL)
query_sql = re.sub(r'```.*$', '', query_sql, flags=re.DOTALL).strip()
match = re.search(r'(SELECT.*)', query_sql, flags=re.IGNORECASE | re.DOTALL)
if match:
    query_sql = match.group(1).strip()
df_resultado = pd.read_sql(query_sql, engine)
```

The first `re.sub`: `[^`]*` cannot cross a backtick, so the pattern matches
exactly when the first backtick of the string opens a literal ```` ```sql ````
fence; the match then greedily extends over following whitespace and is
deleted.  The second `re.sub` deletes everything from the first ```` ``` ````
to the end of the string (DOTALL).  The `re.search` keeps everything from the
first case-insensitive `SELECT` to the end; when it fails, `query_sql` is
left as it was and still reaches `pd.read_sql`. -/

/-- The fence literal ```` ```sql ```` as characters. -/
def fenceSqlChars : List Char := ['`', '`', '`', 's', 'q', 'l']

/-- The closing fence literal ```` ``` ```` as characters. -/
def fenceChars : List Char := ['`', '`', '`']

/-- Scan to the first backtick; if the string continues with
```` ```sql ````, return the remainder after the fence and any following
whitespace (the `\s*`).  `none` means the regex does not match. -/
def acharAbertura : List Char → Option (List Char)
  | [] => none
  | c :: cs =>
    if c = '`' then
      if startsWithLit fenceSqlChars (c :: cs) then
        some ((c :: cs).drop 6 |>.dropWhile pyIsSpace)
      else none
    else acharAbertura cs

/-- Semantics of `re.sub(r'^[^`]*```sql\s*', '', s, flags=re.DOTALL)`. -/
def limparAbertura (s : List Char) : List Char :=
  match acharAbertura s with
  | some rest => rest
  | none => s

/-- Semantics of `re.sub(r'```.*$', '', s, flags=re.DOTALL)`: keep the text
before the first ```` ``` ````. -/
def limparFecho : List Char → List Char
  | [] => []
  | c :: cs =>
    if startsWithLit fenceChars (c :: cs) then []
    else c :: limparFecho cs

/-- The pattern `SELECT` as characters. -/
def selectChars : List Char := ['S', 'E', 'L', 'E', 'C', 'T']

/-- Semantics of `re.search(r'(SELECT.*)', s, flags=re.IGNORECASE |
re.DOTALL)`: the suffix starting at the first case-insensitive `SELECT`, if
any. -/
def acharSelect : List Char → Option (List Char)
  | [] => none
  | c :: cs =>
    if startsWithCI selectChars (c :: cs) then some (c :: cs)
    else acharSelect cs

/-- The candidate text after the two fence deletions and the strips, right
before the `SELECT` search: `re.sub(..., re.sub(..., text.strip())).strip()`. -/
def textoLimpoChars (resposta : List Char) : List Char :=
  pyStrip (limparFecho (limparAbertura (pyStrip resposta)))

/-- The whole cleanup applied to the LLM response text, exactly in source
order: strip, delete opening fence, delete closing fence, strip, keep from
`SELECT` (stripping the match) when it occurs — and keep the candidate text
unchanged when the `SELECT` search fails. -/
def limparQueryChars (resposta : List Char) : List Char :=
  match acharSelect (textoLimpoChars resposta) with
  | some sel => pyStrip sel
  | none => textoLimpoChars resposta

/-- String-level wrapper of the fence cleanup (the candidate before the
`SELECT` search). -/
def textoLimpo (resposta : String) : String :=
  String.mk (textoLimpoChars resposta.data)

/-- String-level wrapper of the cleanup pipeline. -/
def limparQuery (resposta : String) : String :=
  String.mk (limparQueryChars resposta.data)

/-- What `executar_plano_de_analise` does with the cleaned text: it is either
executed against the database or refused beforehand.  The source has no
refusal branch: `pd.read_sql(query_sql, engine)` is reached unconditionally
after the cleanup. -/
inductive PassoExecucao where
  | executa (sql : String)
  | recusa (motivo : String)
  deriving DecidableEq, Repr

/-- The step of `executar_plano_de_analise` that hands the cleaned SQL to the
database.  Faithful to the source: every cleaned string is executed; there is
no deny-list or extraction-failure branch before `pd.read_sql`. -/
def passoExecutor (resposta : String) : PassoExecucao :=
  .executa (limparQuery resposta)

/-- The deny-list of the specification: DROP, DELETE, UPDATE, INSERT, ALTER,
matched case-insensitively.  (This predicate formalises the claim's notion of
a forbidden query; the source contains no such check.) -/
def contemProibida (s : String) : Bool :=
  containsCI ("DROP").data s.data || containsCI ("DELETE").data s.data ||
  containsCI ("UPDATE").data s.data || containsCI ("INSERT").data s.data ||
  containsCI ("ALTER").data s.data

/-! ### The counter sentence of `executar_plano_de_analise` (lines 284-339)

`total_encontrado = len(df_resultado)`; a sentence is produced only under
`if 'Tipo' in df_resultado.columns:`; the noun and the adjectives come from
case-insensitive substring tests on the user prompt. -/

/-- Case-sensitive substring test: Python's `pat in s`. -/
def containsSub (pat : List Char) : List Char → Bool
  | [] => startsWithLit pat []
  | c :: cs => startsWithLit pat (c :: cs) || containsSub pat cs

/-- Python's `str.lower()`, for the ASCII letters that occur in the source's
keyword tests. -/
def pyLower (s : String) : String := String.mk (s.data.map charLower)

/-- Python's `pat in prompt_usuario.lower()`. -/
def noPrompt (pat : String) (p : String) : Bool :=
  containsSub pat.data (pyLower p).data

/-- Lines 290-296: the plural noun inferred from the prompt. -/
def itemTypePlural (p : String) : String :=
  if noPrompt ("projetos de lei") p then "Projetos de Lei"
  else if noPrompt ("leis") p then "Leis"
  else if noPrompt ("normas") p then "Normas"
  else "itens"

/-- Lines 298-310: singular adjustment when exactly one row came back. -/
def itemType (p : String) (total : Nat) : String :=
  let plural := itemTypePlural p
  if total = 1 then
    if plural = "Projetos de Lei" then "Projeto de Lei"
    else if plural = "Leis" then "Lei"
    else if plural = "Normas" then "Norma"
    else "item"
  else plural

/-- Lines 312-335: the status suffix, with gender/number agreement driven by
substring tests on the prompt and on the inferred noun. -/
def statusDesc (p : String) (it : String) (total : Nat) : String :=
  if noPrompt ("prontos para ordem do dia") p || noPrompt ("pronto para ordem do dia") p then
    let adj :=
      if containsSub ("Lei").data it.data then
        if containsSub ("Projeto").data it.data then
          if total = 1 then " pronto" else " prontos"
        else
          if total = 1 then " pronta" else " prontas"
      else
        if total = 1 then " pronto" else " prontos"
    adj ++ " para Ordem do Dia em Plenário."
  else if noPrompt ("publicados") p || noPrompt ("publicadas") p then
    let adj :=
      if containsSub ("Lei").data it.data then
        if total = 1 then " publicada" else " publicadas"
      else
        if total = 1 then " publicado" else " publicados"
    adj ++ "."
  else "."

/-- Line 338: `f"Há **{total_encontrado}** {item_type}{status_desc} Confira a
seguir:"`. -/
def fraseTotal (p : String) (total : Nat) : String :=
  "Há **" ++ toString total ++ "** " ++ itemType p total ++
    statusDesc p (itemType p total) total ++ " Confira a seguir:"

/-- The sentence-production step of the formatter: `len(df_resultado)` rows,
sentence only when a column named `Tipo` is present (line 287), `none`
otherwise (no `st.markdown` call happens). -/
def fraseContador (p : String) (cols : List String) (linhas : List (List Int)) :
    Option String :=
  if "Tipo" ∈ cols then some (fraseTotal p linhas.length) else none

/-! ### Link column and column reordering (lines 348-367) -/

/-- Line 350: the per-cell lambda
`lambda x: f'<a href="{x}" target="_blank">🔗</a>' if pd.notna(x) else ""`,
with a null/NaN URL modelled as `none`. -/
def linkCell : Option String → String
  | some u => "<a href=\"" ++ u ++ "\" target=\"_blank\">🔗</a>"
  | none => ""

/-- Applying the lambda over the url column,
`df_resultado['url'].apply(...)`: the synthesized Link column. -/
def colunaLink (urls : List (Option String)) : List String := urls.map linkCell

/-- Line 355: `expected_order = ['Tipo', 'Número', 'Ano', 'Ementa',
'Partido', 'Link']`. -/
def expected_order : List String :=
  ["Tipo", "Número", "Ano", "Ementa", "Partido", "Link"]

/-- Line 358: `new_order = [col for col in expected_order if col in
df_resultado.columns]`. -/
def novaOrdemInicial (cols : List String) : List String :=
  expected_order.filter (fun c => decide (c ∈ cols))

/-- Lines 361-363: the loop `for col in df_resultado.columns: if col not in
new_order and col != 'url': new_order.append(col)`, with the accumulator
threaded exactly as the mutated Python list. -/
def acrescentaRestantes (acc : List String) : List String → List String
  | [] => acc
  | c :: cs =>
    if c ∈ acc ∨ c = "url" then acrescentaRestantes acc cs
    else acrescentaRestantes (acc ++ [c]) cs

/-- The final column list of the `'url' in df_resultado.columns` branch:
`df['Link'] = ...` appends a Link column (or overwrites it in place), then
the reordering list is built and the frame is reindexed by it after the
`url` column is dropped. -/
def reordenarColunas (cols : List String) : List String :=
  let colsComLink := if "Link" ∈ cols then cols else cols ++ ["Link"]
  acrescentaRestantes (novaOrdemInicial colsComLink) colsComLink

/-! ### `download_file` (lines 113-146)

The filesystem is the list of (path, written content) pairs; the behaviour
of the streamed HTTP GET is a parameter: an HTTP error status (raised by
`raise_for_status()` before the file is opened), a complete stream of
chunks, or an exception after some chunks were already written.  The
`except` handlers print an error and `return False`; neither removes the
destination file. -/

/-- Outcome of the `requests.get(...)` call and the subsequent streaming. -/
inductive RespostaRede where
  | erroHttp (status : Nat)
  | sucesso (chunks : List (List Nat))
  | falhaParcial (escritos : List (List Nat))
  deriving DecidableEq, Repr

/-- The local filesystem: existing paths with their byte content. -/
abbrev Arquivos := List (String × List Nat)

/-- Test `os.path.exists(dest_path)`. -/
def existe (fs : Arquivos) (p : String) : Bool := fs.any (fun e => e.1 = p)

/-- The content written by the chunk loop: `if chunk: f.write(chunk)` skips
empty chunks. -/
def conteudoEscrito (chunks : List (List Nat)) : List Nat :=
  (chunks.filter (fun ch => ch ≠ [])).flatten

/-- Result of one `download_file` call: the returned boolean, the filesystem
afterwards, and how many HTTP GET requests were performed. -/
structure ResultadoDownload where
  ok : Bool
  fs : Arquivos
  requisicoes : Nat
  deriving DecidableEq, Repr

/-- The function `download_file(url, dest_path, description)` (lines
113-146): return
`True` at once when the destination exists; otherwise perform the GET and
either write the whole body, return `False` on an HTTP error (no file was
opened yet), or return `False` after a mid-stream exception leaving the
partially written file in place. -/
def download_file (fs : Arquivos) (dest : String) (rede : RespostaRede) :
    ResultadoDownload :=
  if existe fs dest then ⟨true, fs, 0⟩
  else
    match rede with
    | .erroHttp _ => ⟨false, fs, 1⟩
    | .sucesso chunks => ⟨true, fs ++ [(dest, conteudoEscrito chunks)], 1⟩
    | .falhaParcial escritos => ⟨false, fs ++ [(dest, conteudoEscrito escritos)], 1⟩

/-! ### `load_relationships_from_file` (lines 182-198)

```python
df_rel = df_rel[df_rel['IsActive'] == True]
rel_map = {}
for _, row in df_rel.iterrows():
    from_table = row['FromTableID']
    to_table = row['ToTableID']
    if from_table not in rel_map:
        rel_map[from_table].add(to_table)
return rel_map
```

When `from_table` is not a key, `rel_map[from_table]` raises `KeyError`,
caught by the surrounding `except Exception` which returns `{}`; when it is
a key, the loop body does nothing.  The Python exception is made explicit
with `ResultadoPy`. -/

/-- One tab-separated record of the relations file. -/
structure Relacao where
  fromTableID : Nat
  toTableID : Nat
  isActive : Bool
  deriving DecidableEq, Repr

/-- The `rel_map` dictionary: table id to set of table ids. -/
abbrev MapaRelacoes := List (Nat × List Nat)

/-- Negation of `from_table not in rel_map`. -/
def contemChave (m : MapaRelacoes) (k : Nat) : Bool := m.any (fun e => e.1 = k)

/-- A Python computation that either returns a value or raises. -/
inductive ResultadoPy (α : Type) where
  | ok (val : α)
  | excecao
  deriving DecidableEq, Repr

/-- The loop over the active records, with Python's dict semantics:
`rel_map[from_table]` on a missing key raises `KeyError`. -/
def percorrerRelacoes : List Relacao → MapaRelacoes → ResultadoPy MapaRelacoes
  | [], m => .ok m
  | r :: rs, m =>
    if contemChave m r.fromTableID then percorrerRelacoes rs m
    else .excecao

/-- The function `load_relationships_from_file` applied to a present, well-formed file
whose parsed records are `registros`: filter to active rows, run the loop,
and let the `except Exception` handler turn any raise into `{}`. -/
def load_relationships_from_file (registros : List Relacao) : MapaRelacoes :=
  match percorrerRelacoes (registros.filter (fun r => r.isActive)) [] with
  | .ok m => m
  | .excecao => []

/-- The from-to map the specification claims is built: each active record's
`ToTableID` grouped under its `FromTableID`.  (Spec-side definition, used
only to state what the code fails to produce.) -/
def mapaReivindicado (registros : List Relacao) : MapaRelacoes :=
  (registros.filter (fun r => r.isActive)).foldl
    (fun m r =>
      match m.lookup r.fromTableID with
      | some ts => m.map (fun e => if e.1 = r.fromTableID then (e.1, ts ++ [r.toTableID]) else e)
      | none => m ++ [(r.fromTableID, [r.toTableID])])
    []

/-! ### Schema text generation in `get_database_engine` (lines 200-229) -/

/-- The dictionary `TABLE_ID_TO_NAME` (lines 173-180), in source order; the duplicated
key 42 binds the same value each time, so first-match lookup agrees with
Python's last-wins dict literal. -/
def TABLE_ID_TO_NAME : List (Nat × String) :=
  [(12, "fat_proposicao"), (18, "dim_tipo_proposicao"), (21, "dim_situacao"),
   (24, "dim_ementa"), (78, "dim_norma_juridica"), (111, "dim_proposicao"),
   (414, "fat_proposicao_proposicao_lei_norma_juridica"),
   (27, "dim_autor_proposicao"), (30, "dim_comissao"),
   (33, "dim_comissao_acao_reuniao"), (42, "dim_data"),
   (54, "dim_deputado_estadual"), (69, "dim_partido"),
   (87, "dim_data_publicacao_proposicao"), (198, "dim_deputado_estadual"),
   (201, "dim_data"), (228, "dim_proposicao"), (84, "dim_data"),
   (534, "fat_proposicao_tramitacao"), (540, "dim_proposicao"),
   (606, "fat_rqc"), (609, "fat_proposicao"),
   (612, "fat_publicacao_norma_juridica")]

/-- Lookup `TABLE_ID_TO_NAME.get(id, f"tabela_<id>")` with its synthetic
fallback name (lines 223-224). -/
def nomeTabela (id : Nat) : String :=
  match TABLE_ID_TO_NAME.lookup id with
  | some n => n
  | none => "tabela_" ++ toString id

/-- A table as the introspector reports it: name and the PRAGMA rows
(column name, declared type) in declaration order. -/
abbrev Tabela := String × List (String × String)

/-- One entry of `colunas_com_tipo`: `f"{row['name']} ({row['type']})"`. -/
def renderColuna (c : String × String) : String := c.1 ++ " (" ++ c.2 ++ ")"

/-- Line 217: `colunas_com_tipo = [f"{row['name']} ({row['type']})" for _,
row in df_cols.iterrows()]`. -/
def colunas_com_tipo (cols : List (String × String)) : List String :=
  cols.map renderColuna

/-- Line 218: the text appended for one table. -/
def linhaTabela (t : Tabela) : String :=
  "Tabela " ++ t.1 ++ " (Colunas: " ++ String.intercalate (", ") (colunas_com_tipo t.2) ++ ")\n"

/-- Lines 210-218: the loop over `inspector.get_table_names()`, skipping
names with the `sqlite_` prefix and appending one line per kept table. -/
def esquemaTabelas (tabelas : List Tabela) : String :=
  tabelas.foldl
    (fun esq t => if t.1.startsWith ("sqlite_") then esq else esq ++ linhaTabela t) ""

/-- Plain concatenation of a list of lines (spec-side helper used to state
what the loop produces). -/
def concatLinhas : List String → String
  | [] => ""
  | s :: ss => s ++ concatLinhas ss

/-- Lines 222-225: the relationship summary lines. -/
def linhasRelacoes (m : MapaRelacoes) : String :=
  m.foldl
    (fun esq par =>
      esq ++ "- " ++ nomeTabela par.1 ++ " se relaciona com: " ++
        String.intercalate (", ") (par.2.map nomeTabela) ++ "\n") ""

/-- Lines 210-227: the full schema text `esquema` returned by
`get_database_engine`. -/
def esquemaCompleto (tabelas : List Tabela) (m : MapaRelacoes) : String :=
  esquemaTabelas tabelas ++ "\nRELAÇÕES PRINCIPAIS (JOINs sugeridos):\n" ++
    linhasRelacoes m ++
    "\nDICA: Use INNER JOIN entre tabelas relacionadas. As chaves geralmente seguem o padrão \x27sk_<nome>\x27.\n"

/-- The tail of the schema text after the per-table lines (relations plus
the join hint), named so the structure of `esquemaCompleto` can be stated. -/
def caudaEsquema (m : MapaRelacoes) : String :=
  "\nRELAÇÕES PRINCIPAIS (JOINs sugeridos):\n" ++ linhasRelacoes m ++
    "\nDICA: Use INNER JOIN entre tabelas relacionadas. As chaves geralmente seguem o padrão \x27sk_<nome>\x27.\n"

/-! Helper lemmas. -/

/-- A case-insensitive match survives extending the text to the right. -/
lemma startsWithCI_append (pat : List Char) :
    ∀ u b : List Char, startsWithCI pat u = true → startsWithCI pat (u ++ b) = true := by
  induction pat with
  | nil => intro u b _; rfl
  | cons p ps ih =>
    intro u b h
    cases u with
    | nil => simp [startsWithCI] at h
    | cons c cs =>
      simp only [List.cons_append, startsWithCI, Bool.and_eq_true] at h ⊢
      exact ⟨h.1, ih cs b h.2⟩

/-- Characterisation of the substring search: it succeeds exactly on a
suffix at which the pattern matches. -/
lemma containsCI_iff (pat : List Char) :
    ∀ l : List Char, containsCI pat l = true ↔
      ∃ u, u <:+ l ∧ startsWithCI pat u = true := by
  intro l
  induction l with
  | nil =>
    simp only [containsCI]
    constructor
    · intro h; exact ⟨[], List.suffix_refl [], h⟩
    · rintro ⟨u, hu, hsw⟩
      have : u = [] := List.suffix_nil.mp hu
      simpa [this] using hsw
  | cons c cs ih =>
    simp only [containsCI, Bool.or_eq_true]
    constructor
    · rintro (h | h)
      · exact ⟨c :: cs, List.suffix_refl _, h⟩
      · obtain ⟨u, hu, hsw⟩ := ih.mp h
        exact ⟨u, hu.trans (List.suffix_cons c cs), hsw⟩
    · rintro ⟨u, hu, hsw⟩
      rcases List.suffix_cons_iff.mp hu with h | h
      · exact Or.inl (h ▸ hsw)
      · exact Or.inr (ih.mpr ⟨u, h, hsw⟩)

/-- A case-insensitive substring of an infix is a substring of the whole. -/
lemma containsCI_de_infixo (pat t l : List Char) (hinf : t <:+: l)
    (h : containsCI pat t = true) : containsCI pat l = true := by
  obtain ⟨u, hu, hsw⟩ := (containsCI_iff pat t).mp h
  obtain ⟨a, b, hab⟩ := hinf
  obtain ⟨v, hv⟩ := hu
  refine (containsCI_iff pat l).mpr ⟨u ++ b, ⟨a ++ v, ?_⟩, startsWithCI_append pat u b hsw⟩
  rw [← hab, ← hv]
  simp [List.append_assoc]

/-- Stripping whitespace from both ends yields an infix of the original. -/
lemma pyStrip_infixo (l : List Char) : pyStrip l <:+: l := by
  have h1 : pyStripLeft l.reverse <:+ l.reverse := List.dropWhile_suffix pyIsSpace
  have h2 : (pyStripLeft l.reverse).reverse <+: l := by
    have := List.reverse_prefix.mpr h1
    simpa using this
  have h3 : pyStripLeft (pyStripLeft l.reverse).reverse <:+ (pyStripLeft l.reverse).reverse :=
    List.dropWhile_suffix pyIsSpace
  exact h3.isInfix.trans h2.isInfix

/-- The opening-fence deletion returns a suffix of its input. -/
lemma acharAbertura_sufixo : ∀ l r : List Char, acharAbertura l = some r → r <:+ l := by
  intro l
  induction l with
  | nil => intro r h; simp [acharAbertura] at h
  | cons c cs ih =>
    intro r h
    simp only [acharAbertura] at h
    by_cases hc : c = '`'
    · rw [if_pos hc] at h
      by_cases hf : startsWithLit fenceSqlChars (c :: cs) = true
      · rw [if_pos hf] at h
        cases h
        exact ((List.dropWhile_suffix pyIsSpace).trans (List.drop_suffix 6 (c :: cs)))
      · rw [if_neg hf] at h; cases h
    · rw [if_neg hc] at h
      exact (ih r h).trans (List.suffix_cons c cs)

/-- Hence `limparAbertura` produces a suffix. -/
lemma limparAbertura_sufixo (l : List Char) : limparAbertura l <:+ l := by
  unfold limparAbertura
  cases h : acharAbertura l with
  | none => exact List.suffix_refl l
  | some r => exact acharAbertura_sufixo l r h

/-- The closing-fence deletion keeps an initial segment of its input. -/
lemma limparFecho_prefixo : ∀ l : List Char, limparFecho l <+: l := by
  intro l
  induction l with
  | nil => exact List.prefix_refl []
  | cons c cs ih =>
    simp only [limparFecho]
    by_cases hf : startsWithLit fenceChars (c :: cs) = true
    · rw [if_pos hf]; exact List.nil_prefix
    · rw [if_neg hf]
      obtain ⟨t, ht⟩ := ih
      exact ⟨t, by rw [List.cons_append, ht]⟩

/-- The candidate text the `SELECT` search runs on is an infix of the raw
LLM response. -/
lemma textoLimpo_infixo (s : List Char) : textoLimpoChars s <:+: s := by
  unfold textoLimpoChars
  have h1 : pyStrip (limparFecho (limparAbertura (pyStrip s))) <:+:
      limparFecho (limparAbertura (pyStrip s)) := pyStrip_infixo _
  have h2 : limparFecho (limparAbertura (pyStrip s)) <+: limparAbertura (pyStrip s) :=
    limparFecho_prefixo _
  have h3 : limparAbertura (pyStrip s) <:+ pyStrip s := limparAbertura_sufixo _
  have h4 : pyStrip s <:+: s := pyStrip_infixo s
  exact ((h1.trans h2.isInfix).trans h3.isInfix).trans h4

/-- When `SELECT` does not occur (case-insensitively), the search fails. -/
lemma acharSelect_eq_none (l : List Char) (h : containsCI selectChars l = false) :
    acharSelect l = none := by
  induction l with
  | nil => rfl
  | cons c cs ih =>
    simp only [containsCI, Bool.or_eq_false_iff] at h
    simp only [acharSelect, if_neg (by simp [h.1] : ¬ startsWithCI selectChars (c :: cs) = true)]
    exact ih h.2

/-- The append loop of lines 361-363, run on a duplicate-free column list,
appends exactly the columns not already picked and different from `url`,
in their original order. -/
lemma acrescentaRestantes_eq_filter :
    ∀ (l acc : List String), l.Nodup →
      acrescentaRestantes acc l =
        acc ++ l.filter (fun c => decide (c ∉ acc) && decide (c ≠ "url")) := by
  intro l
  induction l with
  | nil => intro acc _; simp [acrescentaRestantes]
  | cons c cs ih =>
    intro acc hnd
    obtain ⟨hc, hcs⟩ := List.nodup_cons.mp hnd
    simp only [acrescentaRestantes]
    by_cases h : c ∈ acc ∨ c = "url"
    · have hfalse : (decide (c ∉ acc) && decide (c ≠ "url")) = false := by
        rcases h with h | h <;> simp [h]
      rw [if_pos h, ih acc hcs, List.filter_cons, if_neg (by rw [hfalse]; simp)]
    · rw [if_neg h]
      push_neg at h
      rw [ih (acc ++ [c]) hcs]
      have hcond : (decide (c ∉ acc) && decide (c ≠ "url")) = true := by
        simp [h.1, h.2]
      have hcongr : cs.filter (fun d => decide (d ∉ acc ++ [c]) && decide (d ≠ "url")) =
          cs.filter (fun d => decide (d ∉ acc) && decide (d ≠ "url")) := by
        apply List.filter_congr
        intro d hd
        have hdc : d ≠ c := fun hdc => hc (hdc ▸ hd)
        have hmem : (d ∉ acc ++ [c]) ↔ (d ∉ acc) := by
          simp [List.mem_append, hdc]
        rw [decide_eq_decide.mpr hmem]
      rw [hcongr, List.filter_cons, if_pos hcond]
      simp [List.append_assoc]

/-- Accumulating the per-table schema lines from an arbitrary starting
string is appending the lines of the non-internal tables. -/
lemma esquemaTabelas_foldl :
    ∀ (l : List Tabela) (s : String),
      l.foldl (fun esq t => if t.1.startsWith ("sqlite_") then esq else esq ++ linhaTabela t) s =
        s ++ concatLinhas ((l.filter (fun t => !(t.1.startsWith ("sqlite_")))).map linhaTabela) := by
  intro l
  induction l with
  | nil => intro s; simp [concatLinhas]
  | cons t ts ih =>
    intro s
    simp only [List.foldl_cons]
    by_cases hs : t.1.startsWith ("sqlite_") = true
    · rw [if_pos hs, ih s]
      simp [List.filter_cons, hs]
    · rw [if_neg hs, ih (s ++ linhaTabela t)]
      rw [List.filter_cons]
      simp only [hs, Bool.not_false, if_pos]
      simp [concatLinhas, String.append_assoc]

/-- The per-table part of the schema is exactly the concatenation of one
line per non-internal table, in order. -/
lemma esquemaTabelas_eq (tabelas : List Tabela) :
    esquemaTabelas tabelas =
      concatLinhas ((tabelas.filter (fun t => !(t.1.startsWith ("sqlite_")))).map linhaTabela) := by
  have := esquemaTabelas_foldl tabelas ""
  simpa [esquemaTabelas] using this

/-! Claim theorems. -/

/-- C1, counterexample: the cleaned SQL of a concrete LLM response contains
the forbidden keyword DROP (case-insensitively) and nevertheless reaches the
execution step — the claim that execution is never reached for such strings
is false on the code, which has no deny-list check before `pd.read_sql`. -/
theorem c1_contraexemplo :
    contemProibida (limparQuery ("SELECT 1; DROP TABLE x")) = true ∧
    passoExecutor ("SELECT 1; DROP TABLE x") =
      .executa ("SELECT 1; DROP TABLE x") := by
  exact ⟨by decide, by decide⟩

/-- C1, amended: `executar_plano_de_analise` performs no forbidden-keyword
check at all — every cleaned SQL string, including one containing DROP,
DELETE, UPDATE, INSERT or ALTER, is handed unchanged to `pd.read_sql`; no
refusal step exists before execution. -/
theorem c1_corrigido (resposta : String)
    (_h : contemProibida (limparQuery resposta) = true) :
    passoExecutor resposta = .executa (limparQuery resposta) := rfl

/-- Witness for C1 (amended) at a concrete forbidden query. -/
theorem c1_corrigido_instancia :
    contemProibida (limparQuery ("DELETE FROM fat_proposicao")) = true ∧
    passoExecutor ("DELETE FROM fat_proposicao") =
      .executa (limparQuery ("DELETE FROM fat_proposicao")) :=
  ⟨by decide, c1_corrigido ("DELETE FROM fat_proposicao") (by decide)⟩

/-- C2, counterexample: a concrete LLM response without any case-insensitive
`SELECT` does not produce an extraction failure — the unchanged text is
passed on to execution, refuting the claim that an error outcome is
returned. -/
theorem c2_contraexemplo :
    containsCI selectChars ("no sql statement here").data = false ∧
    passoExecutor ("no sql statement here") =
      .executa ("no sql statement here") := by
  exact ⟨by decide, by decide⟩

/-- C2, amended: when `SELECT` does not occur case-insensitively in the LLM
response, the `re.search` step fails silently, the candidate stays the
fence-stripped text, and that text is passed on to execution; no extraction
failure is signalled. -/
theorem c2_corrigido (resposta : String)
    (h : containsCI selectChars resposta.data = false) :
    passoExecutor resposta = .executa (textoLimpo resposta) := by
  have hinf := textoLimpo_infixo resposta.data
  have hcont : containsCI selectChars (textoLimpoChars resposta.data) = false := by
    cases hb : containsCI selectChars (textoLimpoChars resposta.data) with
    | false => rfl
    | true => exact absurd (containsCI_de_infixo _ _ _ hinf hb) (by simp [h])
  have hsel := acharSelect_eq_none _ hcont
  simp [passoExecutor, limparQuery, limparQueryChars, textoLimpo, hsel]

/-- Witness for C2 (amended) at a concrete SELECT-free response. -/
theorem c2_corrigido_instancia :
    containsCI selectChars ("nada de sql aqui").data = false ∧
    passoExecutor ("nada de sql aqui") = .executa (textoLimpo ("nada de sql aqui")) :=
  ⟨by decide, c2_corrigido ("nada de sql aqui") (by decide)⟩

/-- C3, counterexample: a single-row count result (row value 42, column
`Quantidade`) produces no sentence at all, because the sentence is emitted
only when a column named `Tipo` is present; and even with a `Tipo` column
the reported N is the number of rows (1), not the count value 42 in the
row. -/
theorem c3_contraexemplo :
    fraseContador ("Quantos deputados há no partido PT?") ([("Quantidade")]) ([[42]]) = none ∧
    fraseContador ("Quantos deputados há no partido PT?") ([("Tipo")]) ([[42]]) =
      some ("Há **1** item. Confira a seguir:") := by
  exact ⟨by decide, by decide⟩

/-- C3, amended: the sentence `Há **N** ...` is emitted exactly when the
result has a column named `Tipo`, and the reported N is
`len(df_resultado)`, the number of returned rows — not a count value
contained in any row. -/
theorem c3_corrigido (p : String) (cols : List String) (linhas : List (List Int)) :
    (("Tipo") ∈ cols → ∃ resto, fraseContador p cols linhas =
        some ("Há **" ++ toString linhas.length ++ "** " ++ resto)) ∧
    (("Tipo") ∉ cols → fraseContador p cols linhas = none) := by
  constructor
  · intro h
    refine ⟨itemType p linhas.length ++
      (statusDesc p (itemType p linhas.length) linhas.length ++ " Confira a seguir:"), ?_⟩
    simp [fraseContador, h, fraseTotal, String.append_assoc]
  · intro h
    simp [fraseContador, h]

/-- Witness for C3 (amended): with a `Tipo` column the sentence reports the
row count (2 rows), without one no sentence is produced. -/
theorem c3_corrigido_instancia :
    (∃ resto, fraseContador ("x") ([("Tipo")]) ([[5], [6]]) =
        some ("Há **" ++ toString (2 : Nat) ++ "** " ++ resto)) ∧
    fraseContador ("x") ([("Ano")]) ([[5]]) = none :=
  ⟨(c3_corrigido ("x") ([("Tipo")]) ([[5], [6]])).1 (by decide),
   (c3_corrigido ("x") ([("Ano")]) ([[5]])).2 (by decide)⟩

/-- C4, counterexample: a mid-stream exception after one chunk was written
leaves the partially written destination file on disk and returns failure —
the claim that the destination is removed (left absent) is false: the
`except` handlers of `download_file` contain no cleanup. -/
theorem c4_contraexemplo :
    download_file ([]) ("almg_local.db") (.falhaParcial ([[7]])) =
      ⟨false, [(("almg_local.db"), [7])], 1⟩ ∧
    existe (download_file ([]) ("almg_local.db") (.falhaParcial ([[7]]))).fs
      ("almg_local.db") = true := by
  exact ⟨by decide, by decide⟩

/-- C4, amended: on an exception after a partial write, `download_file`
signals failure but leaves the partially written destination file in place;
the path exists afterwards (so a retry will wrongly see a cached file). -/
theorem c4_corrigido (fs : Arquivos) (dest : String) (escritos : List (List Nat))
    (h : existe fs dest = false) :
    download_file fs dest (.falhaParcial escritos) =
      ⟨false, fs ++ [(dest, conteudoEscrito escritos)], 1⟩ ∧
    existe (download_file fs dest (.falhaParcial escritos)).fs dest = true := by
  have h1 : download_file fs dest (.falhaParcial escritos) =
      ⟨false, fs ++ [(dest, conteudoEscrito escritos)], 1⟩ := by
    simp [download_file, h]
  refine ⟨h1, ?_⟩
  rw [h1]
  simp [existe, List.any_append]

/-- Witness for C4 (amended) at a concrete partial download. -/
theorem c4_corrigido_instancia :
    existe ([]) ("db") = false ∧
    (download_file ([]) ("db") (.falhaParcial ([[3]])) =
        ⟨false, [] ++ [(("db"), conteudoEscrito ([[3]]))], 1⟩ ∧
      existe (download_file ([]) ("db") (.falhaParcial ([[3]]))).fs ("db") = true) :=
  ⟨by decide, c4_corrigido ([]) ("db") ([[3]]) (by decide)⟩

/-- C5 (code bug): `load_relationships_from_file` can never return a
non-empty map: on the first active record, `rel_map[from_table]` raises
`KeyError` (the dictionary is empty and the guard `if from_table not in
rel_map` takes exactly the branch that indexes the missing key), the
`except` handler returns `{}`; with no active records the result is `{}`
too.  At the failing input of one active record 12→78 the code yields `{}`
while the claimed map is `{12: {78}}`. -/
theorem c5_bug_codigo :
    (∀ registros : List Relacao, load_relationships_from_file registros = []) ∧
    load_relationships_from_file ([⟨12, 78, true⟩]) = [] ∧
    mapaReivindicado ([⟨12, 78, true⟩]) = [(12, [78])] := by
  refine ⟨?_, by decide, by decide⟩
  intro registros
  unfold load_relationships_from_file
  cases hl : registros.filter (fun r => r.isActive) with
  | nil => simp [percorrerRelacoes]
  | cons r rs => simp [percorrerRelacoes, contemChave]

/-- C6: on the exact input of the claim, the cleanup strips everything up to
and including the ```` ```sql ```` fence, strips the closing fence and what
follows, keeps the text from the first case-insensitive `SELECT`, and
returns exactly `SELECT a FROM b`. -/
theorem c6_extracao_concreta :
    limparAbertura (pyStrip ("here is your query:\n```sql\nSELECT a FROM b\n```").data) =
      ("SELECT a FROM b\n```").data ∧
    textoLimpo ("here is your query:\n```sql\nSELECT a FROM b\n```") = ("SELECT a FROM b") ∧
    limparQuery ("here is your query:\n```sql\nSELECT a FROM b\n```") = ("SELECT a FROM b") := by
  exact ⟨by decide, by decide, by decide⟩

/-- C7: with a `url` column present (duplicate-free columns, no prior
`Link`), the final projection is the canonical order `Tipo, Número, Ano,
Ementa, Partido, Link` restricted to the present columns, followed by the
remaining columns in original order, with `url` removed; on the claim's
concrete input the output is exactly `Tipo, Número, Ano, Ementa, Link`. -/
theorem c7_reordenacao (cols : List String) (h1 : ("url") ∈ cols)
    (h2 : cols.Nodup) (h3 : ("Link") ∉ cols) :
    reordenarColunas cols =
      novaOrdemInicial (cols ++ [("Link")]) ++
        (cols ++ [("Link")]).filter
          (fun c => decide (c ∉ novaOrdemInicial (cols ++ [("Link")])) && decide (c ≠ "url")) ∧
    ("url") ∉ reordenarColunas cols ∧
    reordenarColunas ([("Tipo"), ("Número"), ("Ano"), ("Ementa"), ("url")]) =
      [("Tipo"), ("Número"), ("Ano"), ("Ementa"), ("Link")] := by
  have hnd : (cols ++ [("Link")]).Nodup :=
    h2.append (List.nodup_singleton _)
      (fun a ha hb => h3 ((List.mem_singleton.mp hb) ▸ ha))
  have hre : reordenarColunas cols =
      acrescentaRestantes (novaOrdemInicial (cols ++ [("Link")])) (cols ++ [("Link")]) := by
    simp [reordenarColunas, h3]
  refine ⟨?_, ?_, by decide⟩
  · rw [hre, acrescentaRestantes_eq_filter _ _ hnd]
  · rw [hre, acrescentaRestantes_eq_filter _ _ hnd]
    intro hmem
    rcases List.mem_append.mp hmem with hm | hm
    · have hexp : ("url") ∈ expected_order := List.mem_of_mem_filter hm
      exact absurd hexp (by decide)
    · have hcond := (List.mem_filter.mp hm).2
      simp at hcond

/-- Witness for C7 at the claim's concrete column set. -/
theorem c7_reordenacao_instancia :
    ("url") ∉ reordenarColunas ([("Tipo"), ("Número"), ("Ano"), ("Ementa"), ("url")]) :=
  (c7_reordenacao ([("Tipo"), ("Número"), ("Ano"), ("Ementa"), ("url")])
    (by decide) (by decide) (by decide)).2.1

/-- C8: when the destination file exists, `download_file` returns success at
once with no HTTP request; and two sequential calls for the same destination
where the first created the file perform exactly one GET in total. -/
theorem c8_idempotencia :
    (∀ (fs : Arquivos) (dest : String) (rede : RespostaRede),
        existe fs dest = true → download_file fs dest rede = ⟨true, fs, 0⟩) ∧
    (∀ (fs : Arquivos) (dest : String) (chunks : List (List Nat)) (rede2 : RespostaRede),
        existe fs dest = false →
          (download_file fs dest (.sucesso chunks)).ok = true ∧
          (download_file (download_file fs dest (.sucesso chunks)).fs dest rede2).ok = true ∧
          (download_file fs dest (.sucesso chunks)).requisicoes +
            (download_file (download_file fs dest (.sucesso chunks)).fs dest rede2).requisicoes
              = 1) := by
  constructor
  · intro fs dest rede h
    simp [download_file, h]
  · intro fs dest chunks rede2 h
    have h1 : download_file fs dest (.sucesso chunks) =
        ⟨true, fs ++ [(dest, conteudoEscrito chunks)], 1⟩ := by
      simp [download_file, h]
    have h2 : existe (fs ++ [(dest, conteudoEscrito chunks)]) dest = true := by
      simp [existe, List.any_append]
    refine ⟨by rw [h1], ?_, ?_⟩ <;> rw [h1] <;> simp [download_file, h2]

/-- Witness for C8: an existing file is returned without a request, and a
create-then-recall pair performs one request in total. -/
theorem c8_idempotencia_instancia :
    download_file ([(("a"), [1])]) ("a") (.erroHttp 500) = ⟨true, [(("a"), [1])], 0⟩ ∧
    ((download_file ([]) ("a") (.sucesso ([[2]]))).ok = true ∧
      (download_file (download_file ([]) ("a") (.sucesso ([[2]]))).fs ("a") (.erroHttp 404)).ok
        = true ∧
      (download_file ([]) ("a") (.sucesso ([[2]]))).requisicoes +
        (download_file (download_file ([]) ("a") (.sucesso ([[2]]))).fs ("a")
          (.erroHttp 404)).requisicoes = 1) :=
  ⟨c8_idempotencia.1 ([(("a"), [1])]) ("a") (.erroHttp 500) (by decide),
   c8_idempotencia.2 ([]) ("a") ([[2]]) (.erroHttp 404) (by decide)⟩

/-- C9: the schema text is exactly one line per non-`sqlite_` table in
enumeration order followed by the relations tail, each table's column list
is the map of its declared (name, type) pairs in declaration order, and
each declared pair (distinct renderings assumed) is listed exactly once. -/
theorem c9_esquema (tabelas : List Tabela) (m : MapaRelacoes)
    (t : Tabela) (ht : t ∈ tabelas)
    (hnd : (colunas_com_tipo t.2).Nodup) (c : String × String) (hc : c ∈ t.2) :
    esquemaCompleto tabelas m =
      concatLinhas ((tabelas.filter (fun tb => !(tb.1.startsWith ("sqlite_")))).map linhaTabela) ++
        caudaEsquema m ∧
    colunas_com_tipo t.2 = t.2.map renderColuna ∧
    (colunas_com_tipo t.2).count (renderColuna c) = 1 := by
  refine ⟨?_, rfl, ?_⟩
  · simp [esquemaCompleto, caudaEsquema, esquemaTabelas_eq, String.append_assoc]
  · exact List.count_eq_one_of_mem hnd (List.mem_map_of_mem renderColuna hc)

/-- Witness for C9 at a concrete two-table database (one internal). -/
theorem c9_esquema_instancia :
    (colunas_com_tipo ([(("id"), ("INTEGER"))])).count (renderColuna (("id"), ("INTEGER"))) = 1 :=
  (c9_esquema ([(("dim_a"), [(("id"), ("INTEGER"))]), (("sqlite_x"), [(("s"), (""))])]) ([])
    (("dim_a"), [(("id"), ("INTEGER"))]) (by decide) (by decide)
    (("id"), ("INTEGER")) (by decide)).2.2

/-- C10: each synthesized Link cell is the anchor built from the row's url
when the value is non-null, and the empty string when it is null/NaN. -/
theorem c10_link (urls : List (Option String)) :
    (∀ (i : Nat) (u : String), urls[i]? = some (some u) →
        (colunaLink urls)[i]? =
          some ("<a href=\"" ++ u ++ "\" target=\"_blank\">🔗</a>")) ∧
    (∀ i : Nat, urls[i]? = some none →
        (colunaLink urls)[i]? = some ("")) := by
  constructor
  · intro i u h
    simp [colunaLink, List.getElem?_map, h, linkCell]
  · intro i h
    simp [colunaLink, List.getElem?_map, h, linkCell]

/-- Witness for C10 at a concrete url column with one link and one null. -/
theorem c10_link_instancia :
    (colunaLink ([some ("http://x"), none]))[0]? =
      some ("<a href=\"" ++ ("http://x") ++ "\" target=\"_blank\">🔗</a>") ∧
    (colunaLink ([some ("http://x"), none]))[1]? = some ("") :=
  ⟨(c10_link ([some ("http://x"), none])).1 0 ("http://x") rfl,
   (c10_link ([some ("http://x"), none])).2 1 rfl⟩

end BIApp
